import Mathlib

/-!
Verification of the sqlite worker glue of the elwms repository.

The definitions below are a shallow embedding of the JavaScript sources
`src/src/sqlite/index.js`, `src/src/sqlite/sqliteWorker.js`, the draft
`src/unnamed/part_000` and the pooled-worker draft embedded in
`src/README.md`.  JavaScript values that the glue code inspects are
modelled by `JSValue`; absent object fields are `Option.none`; the
outcomes of calls into the wrapped sqlite library (out of scope per the
spec) are oracle inputs collected in `WorkerEnv`.
-/

namespace Elwms

/-! ## JavaScript primitives used by the glue code -/

/-- Structured-clonable JavaScript values, as far as the glue code ever
inspects them: `undefined`, `null`, booleans, (integer) numbers, strings
and arrays. -/
inductive JSValue where
  | jsUndefined : JSValue
  | null : JSValue
  | bool (b : Bool) : JSValue
  | num (n : Int) : JSValue
  | str (s : String) : JSValue
  | arr (xs : List JSValue) : JSValue
  deriving Repr

/-- JavaScript truthiness of a `JSValue`: `undefined`, `null`, `false`,
`0` and `""` are falsy, everything else (arrays included) is truthy. -/
def truthy : JSValue → Bool
  | .jsUndefined => false
  | .null => false
  | .bool b => b
  | .num n => decide (n ≠ 0)
  | .str s => decide (s ≠ "")
  | .arr _ => true

mutual

/-- The host primitive `structuredClone`: a deep copy.  On the immutable
model values it is provably the identity (`structuredClone_eq`). -/
def structuredClone : JSValue → JSValue
  | .jsUndefined => .jsUndefined
  | .null => .null
  | .bool b => .bool b
  | .num n => .num n
  | .str s => .str s
  | .arr xs => .arr (structuredCloneList xs)

/-- Deep copy of a list of values, element by element. -/
def structuredCloneList : List JSValue → List JSValue
  | [] => []
  | v :: vs => structuredClone v :: structuredCloneList vs

end

/-- A JavaScript error object, as far as the glue code inspects it. -/
structure JSError where
  name : String
  message : String
  deriving Repr, DecidableEq

/-- JavaScript `a > b` where `a` may be `undefined` (`none`): `undefined`
coerces to `NaN` and every relational comparison with `NaN` is `false`. -/
def jsGt : Option Int → Int → Bool
  | none, _ => false
  | some a, b => decide (b < a)

/-- Helper for `jsIndexOf`: scan the character list `s` for the first
position (counted from `i`) where `pat` occurs; `-1` when it never does. -/
def jsIndexOfAux : List Char → List Char → Int → Int
  | [], pat, i => if pat = [] then i else -1
  | c :: rest, pat, i =>
      if pat.isPrefixOf (c :: rest) then i else jsIndexOfAux rest pat (i + 1)

/-- JavaScript `s.indexOf(pat)`: index of the first occurrence of the
substring `pat` in `s`, and `-1` when there is none. -/
def jsIndexOf (s pat : String) : Int :=
  jsIndexOfAux s.data pat.data 0

/-- Helper for `jsReplace`: replace the first occurrence of `pat`. -/
def jsReplaceAux : List Char → List Char → List Char → List Char
  | [], pat, repl => if pat = [] then repl else []
  | c :: rest, pat, repl =>
      if pat.isPrefixOf (c :: rest) then repl ++ (c :: rest).drop pat.length
      else c :: jsReplaceAux rest pat repl

/-- JavaScript `s.replace(pat, repl)` with a string pattern: only the
first occurrence is replaced; when `pat` does not occur, `s` is returned
unchanged.  (The `$`-escapes JavaScript interprets inside the replacement
string are not modelled: no claim depends on the replacement text.) -/
def jsReplace (s pat repl : String) : String :=
  ⟨jsReplaceAux s.data pat.data repl.data⟩

/-! ## Messages exchanged between the main side and the worker -/

/-- A message posted from the main side to the worker, as a record of the
fields any of the sources ever reads off such a message; a field the
sender did not set is `none` (JavaScript `undefined`). -/
structure WorkerMessage where
  action : Option String := none
  name : Option String := none
  arrayBuffer : Option (List Nat) := none
  timestamp : Option Int := none
  type : Option String := none
  sql : Option String := none
  returnValue : Option String := none
  deriving Repr, DecidableEq

/-- A message posted from the worker back to the main side, as a record of
the fields the main-side handler ever reads. -/
structure ReplyMessage where
  type : Option String := none
  timestamp : Option Int := none
  result : Option JSValue := none
  error : Option String := none
  message : Option JSValue := none
  deriving Repr

/-- The reply `{ type: "application/vnd.sqlite3", error: "SQLITE_NOMEM" }`
posted by the catch of the worker's `downloadDB` case
(`sqliteWorker.js` line 35). -/
def nomemReply : ReplyMessage :=
  { type := some "application/vnd.sqlite3", error := some "SQLITE_NOMEM" }

/-! ## The worker, `src/src/sqlite/sqliteWorker.js` -/

/-- The module object an `sqlite3InitModule` call resolves with, as far as
the worker inspects it: whether `'opfs' in sqlite3` holds, and the
`version.libVersion` string logged by `index.js`. -/
structure Sqlite3Module where
  opfs : Bool
  libVersion : String
  deriving Repr, DecidableEq

/-- A database handle created by the worker (`sqlite3.oo1.OpfsDb` or the
transient `sqlite3.oo1.DB` with the `'ct'` flag). -/
inductive DB where
  | opfsDb (path : String) : DB
  | transientDb (path : String) : DB
  deriving Repr, DecidableEq

/-- Oracle inputs: the outcomes of the calls into the wrapped sqlite
library, which the spec puts out of scope.  `initResult` is the outcome of
`sqlite3InitModule(...)`; `execResult` is the value `db.exec(...)`
resolves with. -/
structure WorkerEnv where
  initResult : Except JSError Sqlite3Module
  execResult : JSValue

/-- The `{ db, message }` object `createDatabase` / `uploadDatabase`
resolve with on success. -/
structure DbResult where
  db : DB
  message : String
  deriving Repr, DecidableEq

/-- One argument of a `console.log` / `console.error` call. -/
inductive ConsoleArg where
  | str (s : String) : ConsoleArg
  | jsUndefined : ConsoleArg
  | msgData (m : WorkerMessage) : ConsoleArg
  | errObj (e : JSError) : ConsoleArg
  deriving Repr

/-- One console line produced by the glue code. -/
inductive ConsoleLine where
  | log (args : List ConsoleArg) : ConsoleLine
  | error (args : List ConsoleArg) : ConsoleLine
  deriving Repr

/-- Printing an optional string: an absent field prints as `undefined`. -/
def optArg : Option String → ConsoleArg
  | none => .jsUndefined
  | some s => .str s

/-- `createDatabase(name)` (`sqliteWorker.js` lines 71-79): initialise the
library, then open an OPFS-backed or transient database; the `.catch`
prints `err.name, err.message` and — returning nothing — makes the promise
resolve with `undefined` (`none`), never reject. -/
def createDatabase (env : WorkerEnv) (name : String) :
    Option DbResult × List ConsoleLine :=
  match env.initResult with
  | .ok sqlite3 =>
      if sqlite3.opfs then
        (some { db := .opfsDb ("/" ++ name ++ ".sqlite3"),
                message := "OPFS is available, created persisted database at /" ++
                  name ++ ".sqlite3" }, [])
      else
        (some { db := .transientDb ("/" ++ name ++ ".sqlite3"),
                message := "OPFS is not available, created transient database /" ++
                  name ++ ".sqlite3" }, [])
  | .error err => (none, [.error [.str err.name, .str err.message]])

/-- `uploadDatabase(name, arrayBuffer)` (`sqliteWorker.js` lines 81-93).
On the OPFS path the source's object literal writes the property
`message` twice; in JavaScript the later write wins, so the resolved
message is the "New DB imported ..." one.  Without OPFS the `.then`
throws `new Error("unsupported")`; that error — like an init rejection,
or the `TypeError` from reading `byteLength` of an absent
`arrayBuffer` — is caught by the `.catch`, which prints
`err.name, err.message` and resolves the promise with `undefined`. -/
def uploadDatabase (env : WorkerEnv) (name : String)
    (arrayBuffer : Option (List Nat)) : Option DbResult × List ConsoleLine :=
  match env.initResult with
  | .ok sqlite3 =>
      if sqlite3.opfs then
        match arrayBuffer with
        | some buf =>
            (some { db := .opfsDb ("/" ++ name ++ ".sqlite3"),
                    message := "New DB imported as " ++ name ++ ".sqlite3. (" ++
                      toString buf.length ++ " Bytes)" }, [])
        | none =>
            -- host wording of the TypeError varies; no theorem depends on it
            (none, [.error [.str "TypeError",
                            .str "Cannot read properties of undefined (reading byteLength)"]])
      else
        (none, [.error [.str "Error", .str "unsupported"]])
  | .error err => (none, [.error [.str err.name, .str err.message]])

/-- The rejection value `new Error("not working")` of `getInstance`
(`sqliteWorker.js` line 63). -/
def notWorkingError : JSError := { name := "Error", message := "not working" }

/-- Outcome of one invocation of the `checkAgain` closure inside
`getInstance`. -/
inductive CheckAgainResult where
  | resolved (d : DB) : CheckAgainResult
  | rescheduled : CheckAgainResult
  | rejected (e : JSError) : CheckAgainResult
  deriving Repr, DecidableEq

/-- One invocation of `checkAgain` (`sqliteWorker.js` lines 55-66).  The
closure's own parameter `tries` shadows `getInstance`'s argument; `let
tryCount = 0` re-declares the counter on every invocation, so the guard
`tries > tryCount++` compares the received `tries` against `0`. -/
def checkAgainStep (instance_ : Option DB) (tries : Option Int) :
    CheckAgainResult :=
  let tryCount : Int := 0
  match instance_ with
  | some i => .resolved i
  | none =>
      if jsGt tries tryCount then .rescheduled
      else .rejected notWorkingError

/-- The settled state of the promise returned by `getInstance`. -/
inductive GetInstanceOutcome where
  | resolvedWith (d : DB) : GetInstanceOutcome
  | rejectedWith (e : JSError) : GetInstanceOutcome
  | stillPolling : GetInstanceOutcome
  deriving Repr, DecidableEq

/-- The polling of `getInstance(tries)` (`sqliteWorker.js` lines 53-69),
observed for `fuel` invocations of `checkAgain`.  Both the initial call
`checkAgain()` and every re-scheduled `setTimeout(checkAgain, 0)` pass NO
argument, so the shadowing parameter `tries` is `undefined` (`none`) in
every invocation; `getInstance`'s own argument `tries` is never the value
consulted by the guard. -/
def getInstanceRun (instance_ : Option DB) (tries : Int) :
    Nat → GetInstanceOutcome
  | 0 => .stillPolling
  | fuel + 1 =>
      match checkAgainStep instance_ none with
      | .resolved d => .resolvedWith d
      | .rejected e => .rejectedWith e
      | .rescheduled => getInstanceRun instance_ tries fuel

/-- The settled outcome of `getInstance`: since `checkAgainStep _ none`
never reschedules, the first invocation already settles the promise
(`getInstanceRun_settles`). -/
def getInstanceOutcome (instance_ : Option DB) (tries : Int) :
    Except JSError DB :=
  match instance_ with
  | some d => .ok d
  | none => .error notWorkingError

/-- The identifiers bound at module scope of `sqliteWorker.js`: the
import, the two console aliases, the `instance` variable, the assigned
global `onmessage` and the three function declarations.  Neither
`sqlite3` nor `db` is among them. -/
def workerModuleBindings : List String :=
  ["sqlite3InitModule", "log", "error", "instance", "onmessage",
   "getInstance", "createDatabase", "uploadDatabase"]

/-- The error thrown by the first identifier lookup of the `downloadDB`
try block: `sqlite3` resolves to no binding (see
`workerModuleBindings`; the `db` constants of the `createDB` and
`executeQuery` cases live inside those cases' own braced blocks), so
evaluating `sqlite3.capi.sqlite3_js_db_export(db)` throws a
`ReferenceError` before any library call or `Blob` construction. -/
def referenceErrorSqlite3 : JSError :=
  { name := "ReferenceError", message := "sqlite3 is not defined" }

/-- The catch handler of the `downloadDB` case (`sqliteWorker.js` lines
33-38), applied to the caught error `e`: when `e.message` contains
`"SQLITE_NOMEM"` it posts the `nomemReply`; otherwise it only prints the
error.  Returns the console lines and the posted replies. -/
def downloadDBCatch (e : JSError) : List ConsoleLine × List ReplyMessage :=
  if jsIndexOf e.message "SQLITE_NOMEM" ≠ -1 then ([], [nomemReply])
  else ([.error [.errObj e]], [])

/-- The whole `downloadDB` case (`sqliteWorker.js` lines 28-39): the try
block always throws `referenceErrorSqlite3`, so the case reduces to the
catch handler applied to that error; the `postMessage(blob)` of the try
block is dead code. -/
def downloadDBBranch : List ConsoleLine × List ReplyMessage :=
  downloadDBCatch referenceErrorSqlite3

/-- A call from the worker into the wrapped sqlite library. -/
inductive LibCall where
  | initModule : LibCall
  | dbExec (sql : Option String) (returnValue : Option String) : LibCall
  | dbExport : LibCall
  deriving Repr, DecidableEq

/-- Everything observable about one run of the worker's `onmessage`
handler: console output, replies posted back to the main side, the
`instance` module variable afterwards, the calls made into the wrapped
library, and an error that escaped the handler (the handler is `async`,
so such an error becomes an unhandled promise rejection). -/
structure OnmessageResult where
  console : List ConsoleLine
  posts : List ReplyMessage
  instanceAfter : Option DB
  libCalls : List LibCall
  uncaught : Option JSError
  deriving Repr

/-- Host wording of the `TypeError` thrown when the `createDB` case
destructures the `undefined` that `createDatabase` resolved with after an
init failure; no theorem depends on the exact text. -/
def destructureError : JSError :=
  { name := "TypeError", message := "Cannot destructure property db of undefined" }

/-- The worker's message handler (`sqliteWorker.js` lines 8-51): an
`async` function that destructures `{ data }` and switches on
`data.action`.

* `createDB`: awaits `createDatabase(data.name)`, destructures the result
  (throwing when it is `undefined`), assigns `instance` and logs the
  message.  A missing `name` field stringifies as `"undefined"` in the
  template literals.
* `uploadDB`: same via `uploadDatabase`, but inside a try whose catch
  prints the error.
* `downloadDB`: see `downloadDBBranch`.
* `executeQuery`: logs `data.sql`, awaits `getInstance(1)` (which rejects
  when `instance` is `null`, leaving the handler without a reply), runs
  `db.exec` through the library oracle and posts the
  `application/json` reply echoing `data.timestamp`.
* anything else: the `default` branch only logs the message data. -/
def onmessage (env : WorkerEnv) (instance_ : Option DB)
    (data : WorkerMessage) : OnmessageResult :=
  match data.action with
  | some "createDB" =>
      match createDatabase env ((data.name).getD "undefined") with
      | (some r, cons) =>
          { console := cons ++ [.log [.str r.message]], posts := [],
            instanceAfter := some r.db, libCalls := [.initModule],
            uncaught := none }
      | (none, cons) =>
          { console := cons, posts := [], instanceAfter := instance_,
            libCalls := [.initModule], uncaught := some destructureError }
  | some "uploadDB" =>
      match uploadDatabase env ((data.name).getD "undefined") data.arrayBuffer with
      | (some r, cons) =>
          { console := cons ++ [.log [.str r.message]], posts := [],
            instanceAfter := some r.db, libCalls := [.initModule],
            uncaught := none }
      | (none, cons) =>
          -- destructuring undefined throws; the case's own catch prints it
          { console := cons ++ [.error [.errObj destructureError]], posts := [],
            instanceAfter := instance_, libCalls := [.initModule],
            uncaught := none }
  | some "downloadDB" =>
      { console := downloadDBBranch.1, posts := downloadDBBranch.2,
        instanceAfter := instance_, libCalls := [], uncaught := none }
  | some "executeQuery" =>
      match getInstanceOutcome instance_ 1 with
      | .ok _db =>
          { console := [.log [optArg data.sql]],
            posts := [{ type := some "application/json",
                        timestamp := data.timestamp,
                        result := some (structuredClone env.execResult) }],
            instanceAfter := instance_,
            libCalls := [.dbExec data.sql data.returnValue],
            uncaught := none }
      | .error e =>
          { console := [.log [optArg data.sql]], posts := [],
            instanceAfter := instance_, libCalls := [], uncaught := some e }
  | _ =>
      { console := [.log [.msgData data]], posts := [],
        instanceAfter := instance_, libCalls := [], uncaught := none }

/-! ## The main side, `src/src/sqlite/index.js` -/

/-- The `{ text, values }` argument of `executeQuery` /
`executeQuerySync`; `values` may be absent, and its items are modelled
already stringified (the template literal interpolates them as
strings). -/
structure QueryInput where
  text : String
  values : Option (List String)

/-- The `values.forEach(replacePlaceholder)` loop shared by both query
functions (`index.js` lines 85 and 107): for each item, replace the first
occurrence of `"$" + (index + 1)` by the quoted item. -/
def replacePlaceholders (text : String) (values : List String) : String :=
  values.enum.foldl
    (fun queryString p =>
      jsReplace queryString ("$" ++ toString (p.1 + 1)) ("'" ++ p.2 ++ "'"))
    text

/-- The query string `executeQuery` builds (`index.js` lines 84-85):
placeholders are substituted only when `values` is present and the text
DOES contain `"$"`. -/
def executeQueryString (q : QueryInput) : String :=
  match q.values with
  | some vs =>
      if jsIndexOf q.text "$" ≠ -1 then replacePlaceholders q.text vs
      else q.text
  | none => q.text

/-- The query string `executeQuerySync` builds (`index.js` lines
106-107): its guard is the opposite — substitution runs only when the
text does NOT contain `"$"`. -/
def executeQuerySyncString (q : QueryInput) : String :=
  match q.values with
  | some vs =>
      if jsIndexOf q.text "$" = -1 then replacePlaceholders q.text vs
      else q.text
  | none => q.text

/-- The message literal of `index.js` line 88, with `timestamp` standing
for the `Date.now()` of line 87.  The line is DEAD code: evaluation of
`executeQuery`'s body throws at line 86, before it (see `executeQuery`).
As written, the message would set the fields `timestamp`, `type`, `sql`,
`returnValue` and no others — in particular no `action` field. -/
def executeQueryMessage (q : QueryInput) (timestamp : Int) : WorkerMessage :=
  { timestamp := some timestamp, type := some "exec",
    sql := some (executeQueryString q), returnValue := some "resultRows" }

/-- The message object `executeQuerySync` builds (`index.js` lines
106-108, which run to completion); the line-110 `postMessage` of its
`JSON.stringify` is never reached, because line 109 evaluates the unbound
identifier `getWorker` first and throws. -/
def executeQuerySyncMessage (q : QueryInput) : WorkerMessage :=
  { type := some "exec", sql := some (executeQuerySyncString q),
    returnValue := some "resultRows" }

/-- The shared `returnValues` object (`index.js` line 11): a mapping from
the key used to index it to the stored value; `none` means the key is
absent.  The key is the `timestamp` field of a reply, itself possibly
absent (an absent field indexes the object at the string key
`"undefined"`, which `Option.none` models). -/
def RetMap : Type := Option Int → Option JSValue

/-- Reading `returnValues[k]`: an absent key yields `undefined`. -/
def jsGet (m : RetMap) (k : Option Int) : JSValue :=
  (m k).getD .jsUndefined

/-- One main-side effect of the worker's `onmessage` handler installed by
`initalizeWorker` apart from the `returnValues` write. -/
inductive MainEffect where
  | broadcast (r : ReplyMessage) : MainEffect
  | logResponse (m : Option JSValue) : MainEffect
  deriving Repr

/-- The main-side handler for replies (`index.js` lines 15-32): switch on
`data.type`; the `application/vnd.sqlite3` case re-broadcasts the data,
the `application/json` case stores `structuredClone(data.result)` under
the key `data.timestamp`, the default case logs `data.message`. -/
def mainWorkerOnmessage (returnValues : RetMap) (data : ReplyMessage) :
    RetMap × List MainEffect :=
  match data.type with
  | some "application/vnd.sqlite3" => (returnValues, [.broadcast data])
  | some "application/json" =>
      (fun k =>
        if k = data.timestamp then
          some (structuredClone ((data.result).getD .jsUndefined))
        else returnValues k, [])
  | _ => (returnValues, [.logResponse data.message])

/-- Fold the main-side handler over a list of received replies. -/
def applyReplies (m : RetMap) : List ReplyMessage → RetMap
  | [] => m
  | r :: rs => applyReplies (mainWorkerOnmessage m r).1 rs

/-- One invocation of the polling closure `checkAgain` inside
`executeQuery` (`index.js` lines 91-97).  The closure is DEAD code — the
body throws at line 86 before the promise executor is ever built (see
`executeQuery`) — but as written: when `returnValues[timestamp]` is
truthy it resolves with a `structuredClone` of it (`some`); otherwise it
re-schedules itself via `setTimeout(checkAgain, 0)` (`none`). -/
def checkAgainMain (returnValues : RetMap) (timestamp : Int) :
    Option JSValue :=
  if truthy (jsGet returnValues (some timestamp)) then
    some (structuredClone (jsGet returnValues (some timestamp)))
  else none

/-- The identifiers bound at module scope of `index.js`: the import, the
two console aliases, the three module variables, the `initalizeWorker`
and exported function declarations, and the `api` constant.  `getWorker`
is NOT among them: it exists only as a property of the `api` object
(line 47), so the bare references `getWorker` at lines 86 and 109 resolve
to no binding and throw. -/
def indexModuleBindings : List String :=
  ["sqlite3InitModule", "log", "error", "workers", "publicAPI",
   "returnValues", "initalizeWorker", "api", "executeQuery",
   "executeQuerySync"]

/-- The error thrown by evaluating the bare identifier `getWorker` at
`index.js` lines 86 and 109 (modules are strict code). -/
def referenceErrorGetWorker : JSError :=
  { name := "ReferenceError", message := "getWorker is not defined" }

/-- `executeQuery` (`index.js` lines 83-103), as one run of its body over
the current `returnValues` store: lines 84-85 compute the query string
(`executeQueryString q`, a pure computation), then line 86 evaluates
`await getWorker()`; `getWorker` is unbound (see `indexModuleBindings`),
so the lookup throws and the `async` function's promise rejects with the
ReferenceError.  Lines 87-102 — `Date.now()`, the line-88 `postMessage`,
the polling promise and the `try`/`finally` with its
`delete returnValues[timestamp]` — never run: nothing is posted and the
store is returned untouched.  The result is (messages posted,
`returnValues` afterwards, settled outcome of the returned promise). -/
def executeQuery (returnValues : RetMap) (q : QueryInput) :
    List WorkerMessage × RetMap × Except JSError JSValue :=
  ([], returnValues, .error referenceErrorGetWorker)

/-! ## The public API gating of `index.js` and of `src/unnamed/part_000` -/

/-- What `export default publicAPI` ends up exporting: the initial empty
object `{}` with no methods, or the `api` object. -/
inductive PublicAPIValue where
  | emptyObject : PublicAPIValue
  | apiObject : PublicAPIValue
  deriving Repr, DecidableEq

/-- The module-evaluation gating of `index.js` (lines 71-81): only when
`window.Worker` exists and the top-level `await sqlite3InitModule(...)`
succeeds is `publicAPI` reassigned to `api`; a rejection prints the
initialization error, a missing `Worker` prints the unsupported notice,
and in both cases the export keeps the initial empty object. -/
def publicAPIResult (hasWorker : Bool) (init : Except JSError Sqlite3Module) :
    PublicAPIValue × List ConsoleLine :=
  if hasWorker then
    match init with
    | .ok sqlite3 =>
        (.apiObject, [.log [.str "Running SQLite3 version", .str sqlite3.libVersion]])
    | .error err =>
        (.emptyObject,
         [.error [.str "Initialization error:", .str err.name, .str err.message]])
  else
    (.emptyObject, [.error [.str "Your browser doesn't support web workers."]])

/-- The identical gating of the draft `src/unnamed/part_000` (lines
84-94). -/
def publicAPIResultDraft (hasWorker : Bool)
    (init : Except JSError Sqlite3Module) : PublicAPIValue × List ConsoleLine :=
  if hasWorker then
    match init with
    | .ok sqlite3 =>
        (.apiObject, [.log [.str "Running SQLite3 version", .str sqlite3.libVersion]])
    | .error err =>
        (.emptyObject,
         [.error [.str "Initialization error:", .str err.name, .str err.message]])
  else
    (.emptyObject, [.error [.str "Your browser doesn't support web workers."]])

/-! ## The pooled-worker draft embedded in `src/README.md` -/

/-- A database instance held by the draft's pool; distinct instances are
distinguished by an identifier. -/
structure PoolDB where
  id : Nat
  deriving Repr, DecidableEq

/-- `MAX_POOL_SIZE` of the README draft (line 226). -/
def MAX_POOL_SIZE : Nat := 4

/-- JavaScript `Array.prototype.pop`: remove and return the LAST element;
`undefined` on an empty array. -/
def jsPop (l : List PoolDB) : Option PoolDB × List PoolDB :=
  match l.getLast? with
  | some x => (some x, l.dropLast)
  | none => (none, [])

/-- `getDbConnection` of the README draft (lines 243-251): when the pool
is below `MAX_POOL_SIZE`, create a brand-new instance (modelled by the
oracle argument `freshDb`, the result of `createDbInstance()`), push it,
and return `dbPool.pop()`; otherwise pop from the existing pool.  Returns
the handed-out connection and the pool afterwards. -/
def getDbConnection (dbPool : List PoolDB) (freshDb : PoolDB) :
    Option PoolDB × List PoolDB :=
  if dbPool.length < MAX_POOL_SIZE then
    jsPop (dbPool ++ [freshDb])
  else
    jsPop dbPool

/-- `releaseDbConnection` of the README draft (lines 254-260): push the
connection back when the pool is below `MAX_POOL_SIZE`, else close it
(the Boolean records whether `db.close()` was called). -/
def releaseDbConnection (dbPool : List PoolDB) (db : PoolDB) :
    List PoolDB × Bool :=
  if dbPool.length < MAX_POOL_SIZE then (dbPool ++ [db], false)
  else (dbPool, true)

/-! ## Concrete oracle instantiations used by witnesses -/

/-- An environment in which `sqlite3InitModule` succeeded. -/
def okEnv : WorkerEnv :=
  { initResult := .ok { opfs := true, libVersion := "3.46.1" },
    execResult := .null }

/-- An environment in which `sqlite3InitModule` rejected. -/
def initFailEnv : WorkerEnv :=
  { initResult := .error { name := "SQLite3Error", message := "wasm load failed" },
    execResult := .null }

/-- A concrete `returnValues` store holding one entry, at key `some 1`. -/
def oneEntryStore : RetMap :=
  fun k => if k = some (1 : Int) then some (JSValue.num 42) else none

/-! ## Helper lemmas -/

mutual

theorem structuredClone_eq : ∀ v : JSValue, structuredClone v = v
  | .jsUndefined => rfl
  | .null => rfl
  | .bool _ => rfl
  | .num _ => rfl
  | .str _ => rfl
  | .arr xs => by rw [structuredClone, structuredCloneList_eq]

theorem structuredCloneList_eq : ∀ vs : List JSValue, structuredCloneList vs = vs
  | [] => rfl
  | v :: vs => by rw [structuredCloneList, structuredClone_eq, structuredCloneList_eq]

end

theorem jsIndexOfAux_dollar_eq_neg_one {l : List Char} :
    ∀ i : Int, 0 ≤ i → jsIndexOfAux l ['$'] i = -1 → '$' ∉ l := by
  induction l with
  | nil => intro i _ _ h; exact absurd h (List.not_mem_nil '$')
  | cons c rest ih =>
      intro i hi h
      rw [jsIndexOfAux] at h
      by_cases hp : (['$'] : List Char).isPrefixOf (c :: rest)
      · rw [if_pos hp] at h
        omega
      · rw [if_neg hp] at h
        have hc : c ≠ '$' := by
          intro hc
          apply hp
          subst hc
          simp [List.isPrefixOf]
        intro hmem
        rcases List.mem_cons.mp hmem with h1 | h2
        · exact hc h1.symm
        · exact ih (i + 1) (by omega) h h2

theorem isPrefixOf_dollar_eq_false {l t : List Char} (h : '$' ∉ l) :
    ('$' :: t).isPrefixOf l = false := by
  cases l with
  | nil => rfl
  | cons c rest =>
      have hc : ¬('$' = c) := fun hc => h (hc ▸ List.mem_cons_self c rest)
      simp [List.isPrefixOf, hc]

theorem jsReplaceAux_dollar_eq_self {l : List Char} {t repl : List Char}
    (h : '$' ∉ l) : jsReplaceAux l ('$' :: t) repl = l := by
  induction l with
  | nil => rfl
  | cons c rest ih =>
      rw [jsReplaceAux, isPrefixOf_dollar_eq_false h]
      simp only [Bool.false_eq_true, if_false, List.cons.injEq, true_and]
      exact ih (fun hm => h (List.mem_cons_of_mem c hm))

theorem getInstanceRun_settles (instance_ : Option DB) (tries : Int)
    (fuel : Nat) (h : 1 ≤ fuel) :
    getInstanceRun instance_ tries fuel =
      match getInstanceOutcome instance_ tries with
      | .ok d => .resolvedWith d
      | .error e => .rejectedWith e := by
  obtain ⟨n, rfl⟩ : ∃ n, fuel = n + 1 := ⟨fuel - 1, by omega⟩
  cases instance_ with
  | none => rfl
  | some d => rfl

/-- The `default` branch of the worker's switch: a message whose `action`
is none of the four recognised ones is only logged; no library call, no
reply, no state change. -/
theorem onmessage_unknown_action (env : WorkerEnv) (instance_ : Option DB)
    (data : WorkerMessage)
    (h : data.action ∉ ([some "createDB", some "uploadDB", some "downloadDB",
      some "executeQuery"] : List (Option String))) :
    onmessage env instance_ data =
      { console := [.log [.msgData data]], posts := [],
        instanceAfter := instance_, libCalls := [], uncaught := none } := by
  simp only [List.mem_cons, List.not_mem_nil, or_false, not_or] at h
  obtain ⟨h1, h2, h3, h4⟩ := h
  unfold onmessage
  split
  · rename_i heq; exact absurd heq h1
  · rename_i heq; exact absurd heq h2
  · rename_i heq; exact absurd heq h3
  · rename_i heq; exact absurd heq h4
  · rfl

/-- The main-side handler changes `returnValues` at most at the key
carried by the reply it processes. -/
theorem mainWorkerOnmessage_preserves_other (m : RetMap) (r : ReplyMessage)
    (k : Option Int) (hk : k ≠ r.timestamp) :
    (mainWorkerOnmessage m r).1 k = m k := by
  unfold mainWorkerOnmessage
  split
  · rfl
  · exact if_neg hk
  · rfl

/-- The main-side handler never removes an entry from `returnValues`: its
only write is the insert of the `application/json` case. -/
theorem mainWorkerOnmessage_isSome_mono (m : RetMap) (r : ReplyMessage)
    (k : Option Int) (hk : (m k).isSome = true) :
    ((mainWorkerOnmessage m r).1 k).isSome = true := by
  unfold mainWorkerOnmessage
  split
  · exact hk
  · simp only
    split
    · rfl
    · exact hk
  · exact hk

/-- Folding the main-side handler over any list of replies never removes
an entry from `returnValues`. -/
theorem applyReplies_isSome_mono (rs : List ReplyMessage) (m : RetMap)
    (k : Option Int) (hk : (m k).isSome = true) :
    ((applyReplies m rs) k).isSome = true := by
  induction rs generalizing m with
  | nil => exact hk
  | cons r rs ih =>
      exact ih (mainWorkerOnmessage m r).1
        (mainWorkerOnmessage_isSome_mono m r k hk)

/-! ## Claim theorems -/

/-- C5: the worker dispatches every message solely on its `action` field,
recognising exactly `createDB`, `uploadDB`, `downloadDB` and
`executeQuery` (the four named cases of `onmessage`); for any message
whose `action` is none of these, it only logs the message data and
neither calls the wrapped library nor posts a reply. -/
theorem onmessage_default_only_logs (env : WorkerEnv) (instance_ : Option DB)
    (data : WorkerMessage)
    (h : data.action ∉ ([some "createDB", some "uploadDB", some "downloadDB",
      some "executeQuery"] : List (Option String))) :
    onmessage env instance_ data =
      { console := [.log [.msgData data]], posts := [],
        instanceAfter := instance_, libCalls := [], uncaught := none } :=
  onmessage_unknown_action env instance_ data h

theorem onmessage_default_only_logs_witness :
    (some "runQuery" ∉ ([some "createDB", some "uploadDB", some "downloadDB",
      some "executeQuery"] : List (Option String))) ∧
    onmessage { initResult := .ok { opfs := true, libVersion := "3.46.1" },
                execResult := .null } none { action := some "runQuery" } =
      { console := [.log [.msgData { action := some "runQuery" }]], posts := [],
        instanceAfter := none, libCalls := [], uncaught := none } :=
  ⟨by decide,
   onmessage_default_only_logs
     { initResult := .ok { opfs := true, libVersion := "3.46.1" },
       execResult := .null } none { action := some "runQuery" } (by decide)⟩

/-- C1 counterexample: the claim says every call to `executeQuery` posts
a message to the worker (with the line-88 fields) and that the worker's
default branch is what keeps the promise pending; in fact the concrete
call `executeQuery({text: "SELECT 1;"})` posts NO message at all and its
promise rejects immediately with the `getWorker` ReferenceError — line 86
throws before line 88. -/
theorem executeQuery_posts_no_message :
    (executeQuery (fun _ => none) ⟨"SELECT 1;", none⟩).1 = [] ∧
    (executeQuery (fun _ => none) ⟨"SELECT 1;", none⟩).2.2 =
      .error referenceErrorGetWorker := by
  exact ⟨rfl, rfl⟩

/-- C1 (amended): every call to `executeQuery` throws a ReferenceError at
`index.js` line 86 — the bare identifier `getWorker` is only a property
of the `api` object, not a module binding — before the line-88
`postMessage`; so no message is posted to the worker and the returned
promise rejects immediately with that error (in particular it never
resolves).  The line-88 message literal is dead code: as written it would
carry `timestamp`, `type = "exec"`, `sql` and `returnValue` but no
`action` field, and the worker — dispatching only on `data.action` —
would send it to the `default` branch and post no reply. -/
theorem executeQuery_throws_before_posting (q : QueryInput) (t : Int)
    (env : WorkerEnv) (instance_ : Option DB) (m : RetMap) :
    executeQuery m q = ([], m, .error referenceErrorGetWorker) ∧
    "getWorker" ∉ indexModuleBindings ∧
    (executeQueryMessage q t).timestamp = some t ∧
    (executeQueryMessage q t).type = some "exec" ∧
    (executeQueryMessage q t).sql = some (executeQueryString q) ∧
    (executeQueryMessage q t).returnValue = some "resultRows" ∧
    (executeQueryMessage q t).action = none ∧
    onmessage env instance_ (executeQueryMessage q t) =
      { console := [.log [.msgData (executeQueryMessage q t)]], posts := [],
        instanceAfter := instance_, libCalls := [], uncaught := none } := by
  refine ⟨rfl, by decide, rfl, rfl, rfl, rfl, rfl, ?_⟩
  exact onmessage_unknown_action env instance_ (executeQueryMessage q t)
    (by simp [executeQueryMessage])

theorem executeQuery_throws_before_posting_witness :
    executeQuery (fun _ => none) ⟨"INSERT INTO animals(animal) VALUES ($1);",
        some ["Cat"]⟩ =
      ([], fun _ => none, .error referenceErrorGetWorker) ∧
    onmessage { initResult := .ok { opfs := true, libVersion := "3.46.1" },
                execResult := .null } none
      (executeQueryMessage ⟨"INSERT INTO animals(animal) VALUES ($1);",
        some ["Cat"]⟩ 7) =
      { console := [.log [.msgData (executeQueryMessage
          ⟨"INSERT INTO animals(animal) VALUES ($1);", some ["Cat"]⟩ 7)]],
        posts := [], instanceAfter := none, libCalls := [],
        uncaught := none } :=
  ⟨(executeQuery_throws_before_posting
      ⟨"INSERT INTO animals(animal) VALUES ($1);", some ["Cat"]⟩ 7
      { initResult := .ok { opfs := true, libVersion := "3.46.1" },
        execResult := .null } none (fun _ => none)).1,
   (executeQuery_throws_before_posting
      ⟨"INSERT INTO animals(animal) VALUES ($1);", some ["Cat"]⟩ 7
      { initResult := .ok { opfs := true, libVersion := "3.46.1" },
        execResult := .null } none (fun _ => none)).2.2.2.2.2.2.2⟩

/-- C2 counterexample: the claim describes a correlator that posts a
timestamp-keyed message and busy-polls until `returnValues[timestamp]` is
set; in fact (i) the concrete call `executeQuery` with a parameterised
query posts nothing — it rejects at line 86 with the `getWorker`
ReferenceError before posting or building the poll — and (ii) even the
poll as written does not resolve on a SET entry: the test is the
truthiness test `if (returnValues[timestamp])`, so an entry set to the
falsy value `false` keeps it re-scheduling. -/
theorem correlator_never_reached :
    (executeQuery (fun _ => none)
      ⟨"SELECT * FROM animals WHERE id=$1;", some ["3"]⟩).1 = [] ∧
    (executeQuery (fun _ => none)
      ⟨"SELECT * FROM animals WHERE id=$1;", some ["3"]⟩).2.2 =
      .error referenceErrorGetWorker ∧
    ((fun k => if k = some (0 : Int) then some (JSValue.bool false) else none :
        RetMap) (some 0)).isSome = true ∧
    checkAgainMain
      (fun k => if k = some (0 : Int) then some (JSValue.bool false) else none)
      0 = none := by
  exact ⟨rfl, rfl, rfl, rfl⟩

/-- C2 (amended): the correlator never runs: every `executeQuery` call
throws the `getWorker` ReferenceError at `index.js` line 86 — before
`Date.now()`, before posting and before building the poll — so nothing is
posted, `returnValues` is untouched and the returned promise rejects
immediately.  The correlator exists only as dead code, and as written:
the poll of lines 91-97 resolves with a `structuredClone` of the stored
value only once the entry at the timestamp holds a TRUTHY value (a falsy
stored value keeps it polling); the worker's `executeQuery` reply echoes
the request's `timestamp` field; and a reply stored under any other key
leaves the poll at this timestamp unchanged, so it would never resolve
the call. -/
theorem correlator_dead_code (q : QueryInput) (t : Int) (m : RetMap)
    (env : WorkerEnv) (instance_ : Option DB) (data : WorkerMessage) :
    executeQuery m q = ([], m, .error referenceErrorGetWorker) ∧
    (executeQueryMessage q t).timestamp = some t ∧
    (truthy (jsGet m (some t)) = true →
      checkAgainMain m t = some (structuredClone (jsGet m (some t)))) ∧
    (truthy (jsGet m (some t)) = false → checkAgainMain m t = none) ∧
    (data.action = some "executeQuery" →
      ∀ r ∈ (onmessage env instance_ data).posts, r.timestamp = data.timestamp) ∧
    (∀ r : ReplyMessage, r.timestamp ≠ some t →
      checkAgainMain (mainWorkerOnmessage m r).1 t = checkAgainMain m t) := by
  refine ⟨rfl, rfl, ?_, ?_, ?_, ?_⟩
  · intro h; unfold checkAgainMain; rw [if_pos h]
  · intro h; unfold checkAgainMain; rw [if_neg (by rw [h]; exact Bool.false_ne_true)]
  · intro ha r hr
    unfold onmessage at hr
    rw [ha] at hr
    revert hr
    cases instance_ with
    | none => intro hr; exact absurd hr (List.not_mem_nil r)
    | some d =>
        intro hr
        rcases List.mem_singleton.mp hr with rfl
        rfl
  · intro r hr
    have hpre : (mainWorkerOnmessage m r).1 (some t) = m (some t) :=
      mainWorkerOnmessage_preserves_other m r (some t) (fun h => hr h.symm)
    unfold checkAgainMain jsGet
    rw [hpre]

theorem correlator_dead_code_witness :
    executeQuery
      (fun k => if k = some (3 : Int) then some (JSValue.arr [JSValue.num 1])
        else none) ⟨"SELECT 1;", none⟩ =
      ([],
       (fun k => if k = some (3 : Int) then some (JSValue.arr [JSValue.num 1])
         else none),
       .error referenceErrorGetWorker) ∧
    checkAgainMain
      (fun k => if k = some (3 : Int) then some (JSValue.arr [JSValue.num 1])
        else none) 3 =
      some (structuredClone (jsGet
        (fun k => if k = some (3 : Int) then some (JSValue.arr [JSValue.num 1])
          else none) (some 3))) :=
  ⟨(correlator_dead_code ⟨"SELECT 1;", none⟩ 3
       (fun k => if k = some (3 : Int) then some (JSValue.arr [JSValue.num 1])
         else none)
       { initResult := .ok { opfs := true, libVersion := "3.46.1" },
         execResult := .null } none {}).1,
   (correlator_dead_code ⟨"SELECT 1;", none⟩ 3
       (fun k => if k = some (3 : Int) then some (JSValue.arr [JSValue.num 1])
         else none)
       { initResult := .ok { opfs := true, libVersion := "3.46.1" },
         execResult := .null } none {}).2.2.1 rfl⟩

/-- C3 counterexample: the claim says that for `tries ≥ 1` with `instance`
null the guard always holds, `checkAgain` is re-scheduled forever and the
rejection is never reached; but already the first invocation of
`checkAgain` — called with no argument, so with its shadowing parameter
`tries` undefined — fails the guard (`undefined > 0` is false) and
rejects `getInstance(1)` with the "not working" error. -/
theorem getInstance_rejects_first_poll :
    getInstanceRun none 1 1 = .rejectedWith notWorkingError ∧
    checkAgainStep none none = .rejected notWorkingError ∧
    jsGt none 0 = false := by
  refine ⟨rfl, rfl, rfl⟩

/-- C3 (amended): `tryCount` is indeed re-declared (reset to 0) on every
`checkAgain` invocation, but the bug is unreachable: `checkAgain`'s
parameter `tries` shadows `getInstance`'s argument and every invocation —
the initial `checkAgain()` and any `setTimeout(checkAgain, 0)` — passes
no argument, so the guard compares `undefined > 0`, which is false; hence
for every value of `getInstance`'s `tries`, the first invocation already
settles the promise: it resolves with the instance when one is present
and otherwise rejects with the "not working" error.  `getInstance`
terminates; it never re-schedules. -/
theorem getInstance_settles_first_poll (instance_ : Option DB) (tries : Int)
    (fuel : Nat) (h : 1 ≤ fuel) :
    jsGt none 0 = false ∧
    getInstanceRun instance_ tries fuel =
      match instance_ with
      | some d => .resolvedWith d
      | none => .rejectedWith notWorkingError := by
  refine ⟨rfl, ?_⟩
  rw [getInstanceRun_settles instance_ tries fuel h]
  cases instance_ <;> rfl

theorem getInstance_settles_first_poll_witness :
    jsGt none 0 = false ∧
    getInstanceRun none 5 3 = .rejectedWith notWorkingError :=
  getInstance_settles_first_poll none 5 3 (by decide)

/-- C4: every `downloadDB` message takes the catch branch, because the
try block references the identifiers `sqlite3` and `db`, neither of which
is bound in the worker module; the resulting ReferenceError's message
does not contain `"SQLITE_NOMEM"`, so the handler only prints the error
to the console and posts no message — in particular no database blob. -/
theorem downloadDB_always_catches (env : WorkerEnv) (instance_ : Option DB)
    (data : WorkerMessage) (h : data.action = some "downloadDB") :
    onmessage env instance_ data =
      { console := [.error [.errObj referenceErrorSqlite3]], posts := [],
        instanceAfter := instance_, libCalls := [], uncaught := none } ∧
    "sqlite3" ∉ workerModuleBindings ∧
    "db" ∉ workerModuleBindings ∧
    jsIndexOf referenceErrorSqlite3.message "SQLITE_NOMEM" = -1 := by
  refine ⟨?_, by decide, by decide, by decide⟩
  unfold onmessage
  rw [h]
  rfl

theorem downloadDB_always_catches_witness :
    ({ action := some "downloadDB" : WorkerMessage }.action =
      some "downloadDB") ∧
    onmessage { initResult := .ok { opfs := true, libVersion := "3.46.1" },
                execResult := .null } none { action := some "downloadDB" } =
      { console := [.error [.errObj referenceErrorSqlite3]], posts := [],
        instanceAfter := none, libCalls := [], uncaught := none } :=
  ⟨rfl,
   (downloadDB_always_catches
     { initResult := .ok { opfs := true, libVersion := "3.46.1" },
       execResult := .null } none { action := some "downloadDB" } rfl).1⟩

/-- C6: every error path in the worker ends in console output and nothing
else.  When `sqlite3InitModule` rejects, `createDatabase` and
`uploadDatabase` catch the error, print `err.name, err.message` and — the
model's `none` — resolve with `undefined` instead of rejecting (their
result type `Option DbResult × List ConsoleLine` has no rejection
channel: the `.catch` swallows the error).  The only reply carrying an
`error` field that the `downloadDB` catch can ever post is the single
SQLITE_NOMEM notice, and every reply `onmessage` ever posts either
carries no `error` field or is that notice. -/
theorem worker_error_paths_only_print (env : WorkerEnv) (err : JSError)
    (name : String) (arrayBuffer : Option (List Nat)) (e : JSError)
    (instance_ : Option DB) (data : WorkerMessage) :
    (env.initResult = .error err →
      createDatabase env name =
        (none, [.error [.str err.name, .str err.message]]) ∧
      uploadDatabase env name arrayBuffer =
        (none, [.error [.str err.name, .str err.message]])) ∧
    (∀ r ∈ (downloadDBCatch e).2, r = nomemReply) ∧
    (∀ r ∈ (onmessage env instance_ data).posts,
      r.error = none ∨ r = nomemReply) := by
  refine ⟨?_, ?_, ?_⟩
  · intro h
    constructor
    · unfold createDatabase; rw [h]
    · unfold uploadDatabase; rw [h]
  · intro r hr
    unfold downloadDBCatch at hr
    by_cases hc : jsIndexOf e.message "SQLITE_NOMEM" ≠ -1
    · rw [if_pos hc] at hr
      exact List.mem_singleton.mp hr
    · rw [if_neg hc] at hr
      exact absurd hr (List.not_mem_nil r)
  · intro r hr
    unfold onmessage at hr
    split at hr
    · split at hr <;> exact absurd hr (List.not_mem_nil r)
    · split at hr <;> exact absurd hr (List.not_mem_nil r)
    · have hdl : downloadDBBranch.2 = ([] : List ReplyMessage) := rfl
      rw [hdl] at hr
      exact absurd hr (List.not_mem_nil r)
    · split at hr
      · rcases List.mem_singleton.mp hr with rfl
        exact Or.inl rfl
      · exact absurd hr (List.not_mem_nil r)
    · exact absurd hr (List.not_mem_nil r)

theorem worker_error_paths_only_print_witness :
    createDatabase initFailEnv "pets" =
      (none, [.error [.str "SQLite3Error", .str "wasm load failed"]]) ∧
    uploadDatabase initFailEnv "pets" (some [0, 1]) =
      (none, [.error [.str "SQLite3Error", .str "wasm load failed"]]) ∧
    (nomemReply = nomemReply) ∧
    (({ type := some "application/json", timestamp := some 9,
        result := some JSValue.null : ReplyMessage }).error = none ∨
      ({ type := some "application/json", timestamp := some 9,
         result := some JSValue.null : ReplyMessage }) = nomemReply) := by
  refine ⟨?_, ?_, ?_, ?_⟩
  · exact ((worker_error_paths_only_print initFailEnv
      { name := "SQLite3Error", message := "wasm load failed" }
      "pets" (some [0, 1]) { name := "Error", message := "x" } none {}).1 rfl).1
  · exact ((worker_error_paths_only_print initFailEnv
      { name := "SQLite3Error", message := "wasm load failed" }
      "pets" (some [0, 1]) { name := "Error", message := "x" } none {}).1 rfl).2
  · exact (worker_error_paths_only_print okEnv { name := "E", message := "m" }
      "pets" none { name := "OperationError", message := "db export SQLITE_NOMEM" }
      none {}).2.1 nomemReply (List.mem_singleton.mpr rfl)
  · exact (worker_error_paths_only_print okEnv { name := "E", message := "m" }
      "pets" none { name := "Error", message := "x" }
      (some (.opfsDb "/pets.sqlite3"))
      { action := some "executeQuery", timestamp := some 9 }).2.2
      { type := some "application/json", timestamp := some 9,
        result := some JSValue.null } (List.mem_singleton.mpr rfl)

/-- C7: the default export is the `api` object exactly when
`window.Worker` exists and the top-level `await sqlite3InitModule(...)`
succeeds; on a rejection the initialization error is printed, without
worker support the unsupported notice is printed, and in both cases the
export remains the initial empty object; the draft `src/unnamed/part_000`
uses the very same gating. -/
theorem publicAPI_gated (hasWorker : Bool)
    (init : Except JSError Sqlite3Module) :
    ((publicAPIResult hasWorker init).1 = .apiObject ↔
      hasWorker = true ∧ ∃ s, init = .ok s) ∧
    (∀ err, init = .error err → hasWorker = true →
      publicAPIResult hasWorker init =
        (.emptyObject,
         [.error [.str "Initialization error:", .str err.name,
                  .str err.message]])) ∧
    (hasWorker = false →
      publicAPIResult hasWorker init =
        (.emptyObject,
         [.error [.str "Your browser doesn't support web workers."]])) ∧
    publicAPIResultDraft hasWorker init = publicAPIResult hasWorker init := by
  cases hasWorker <;> cases init <;>
    simp [publicAPIResult, publicAPIResultDraft]

theorem publicAPI_gated_witness :
    publicAPIResult true (.error { name := "SQLite3Error", message := "no wasm" }) =
      (.emptyObject, [.error [.str "Initialization error:", .str "SQLite3Error",
                              .str "no wasm"]]) ∧
    publicAPIResult false (.ok { opfs := true, libVersion := "3.46.1" }) =
      (.emptyObject,
       [.error [.str "Your browser doesn't support web workers."]]) ∧
    (publicAPIResult true (.ok { opfs := true, libVersion := "3.46.1" })).1 =
      .apiObject :=
  ⟨(publicAPI_gated true (.error { name := "SQLite3Error", message := "no wasm" })).2.1
     { name := "SQLite3Error", message := "no wasm" } rfl rfl,
   (publicAPI_gated false (.ok { opfs := true, libVersion := "3.46.1" })).2.2.1 rfl,
   ((publicAPI_gated true (.ok { opfs := true, libVersion := "3.46.1" })).1).mpr
     ⟨rfl, ⟨{ opfs := true, libVersion := "3.46.1" }, rfl⟩⟩⟩

/-- C8: whenever the pool of the README draft is below `MAX_POOL_SIZE`,
`getDbConnection` pushes the brand-new instance and immediately pops it
back off, so the handed-out connection is always the new instance, the
pool afterwards is exactly the pool from before, and an instance already
sitting in the pool is never the one handed out. -/
theorem getDbConnection_returns_fresh (dbPool : List PoolDB)
    (freshDb : PoolDB) (h : dbPool.length < MAX_POOL_SIZE) :
    (getDbConnection dbPool freshDb).1 = some freshDb ∧
    (getDbConnection dbPool freshDb).2 = dbPool ∧
    (freshDb ∉ dbPool →
      ∀ d ∈ dbPool, (getDbConnection dbPool freshDb).1 ≠ some d) := by
  have h1 : getDbConnection dbPool freshDb = (some freshDb, dbPool) := by
    unfold getDbConnection jsPop
    rw [if_pos h, List.getLast?_concat, List.dropLast_concat]
  refine ⟨by rw [h1], by rw [h1], ?_⟩
  intro hnm d hd heq
  rw [h1] at heq
  obtain rfl := Option.some.inj heq
  exact hnm hd

theorem getDbConnection_returns_fresh_witness :
    (getDbConnection [{ id := 0 }, { id := 1 }] { id := 7 }).1 =
      some { id := 7 } ∧
    (getDbConnection [{ id := 0 }, { id := 1 }] { id := 7 }).2 =
      [{ id := 0 }, { id := 1 }] ∧
    (getDbConnection [{ id := 0 }, { id := 1 }] { id := 7 }).1 ≠
      some { id := 0 } :=
  ⟨(getDbConnection_returns_fresh [{ id := 0 }, { id := 1 }] { id := 7 }
      (by decide)).1,
   (getDbConnection_returns_fresh [{ id := 0 }, { id := 1 }] { id := 7 }
      (by decide)).2.1,
   (getDbConnection_returns_fresh [{ id := 0 }, { id := 1 }] { id := 7 }
      (by decide)).2.2 (by decide) { id := 0 } (by decide)⟩

/-- C9 counterexample: the claim asserts the `finally` clause's
`delete returnValues[timestamp]` executes as the function body returns
the still-pending promise; in fact the concrete call rejects at line 86 —
outside the `try` of lines 89-102 — so the body neither returns a pending
promise (the promise is already rejected) nor touches `returnValues`: the
store, holding an entry at key `some 1`, comes back identical. -/
theorem finally_clause_never_runs :
    executeQuery oneEntryStore ⟨"DELETE FROM animals WHERE id=$1;", some ["2"]⟩
      = ([], oneEntryStore, .error referenceErrorGetWorker) := by
  exact rfl

/-- C9 (amended): `executeQuery` throws the `getWorker` ReferenceError at
`index.js` line 86, before the `try`/`finally` of lines 89-102 is
entered, so the `finally` clause `delete returnValues[timestamp]` — the
only delete on `returnValues` in the module — never executes and every
call leaves `returnValues` untouched; since the worker-reply handler only
inserts, an entry written into `returnValues` is never deleted and the
mapping only ever grows across calls. -/
theorem returnValues_never_deleted (m : RetMap) (q : QueryInput)
    (rs : List ReplyMessage) (k : Option Int) :
    executeQuery m q = ([], m, .error referenceErrorGetWorker) ∧
    ((m k).isSome = true → ((applyReplies m rs) k).isSome = true) :=
  ⟨rfl, applyReplies_isSome_mono rs m k⟩

theorem returnValues_never_deleted_witness :
    executeQuery oneEntryStore ⟨"SELECT * FROM animals;", none⟩ =
      ([], oneEntryStore, .error referenceErrorGetWorker) ∧
    ((applyReplies oneEntryStore
      [{ type := some "application/json", timestamp := some 5,
         result := some (JSValue.num 7) }]) (some 1)).isSome = true :=
  ⟨(returnValues_never_deleted oneEntryStore ⟨"SELECT * FROM animals;", none⟩
      [{ type := some "application/json", timestamp := some 5,
         result := some (JSValue.num 7) }] (some 1)).1,
   (returnValues_never_deleted oneEntryStore ⟨"SELECT * FROM animals;", none⟩
      [{ type := some "application/json", timestamp := some 5,
         result := some (JSValue.num 7) }] (some 1)).2 rfl⟩

theorem data_append_dollar (s : String) : ("$" ++ s).data = '$' :: s.data := by
  cases s
  rfl

theorem no_dollar_of_jsIndexOf_eq_neg_one {s : String}
    (h : jsIndexOf s "$" = -1) : '$' ∉ s.data :=
  jsIndexOfAux_dollar_eq_neg_one 0 (le_refl 0) h

theorem foldl_jsReplace_no_dollar (ps : List (Nat × String)) (q : String)
    (h : '$' ∉ q.data) :
    ps.foldl (fun queryString p =>
      jsReplace queryString ("$" ++ toString (p.1 + 1)) ("'" ++ p.2 ++ "'")) q
      = q := by
  induction ps generalizing q with
  | nil => rfl
  | cons p ps ih =>
      rw [List.foldl_cons]
      have hstep : jsReplace q ("$" ++ toString (p.1 + 1)) ("'" ++ p.2 ++ "'") = q := by
        unfold jsReplace
        rw [data_append_dollar (toString (p.1 + 1)), jsReplaceAux_dollar_eq_self h]
      rw [hstep]
      exact ih q h

/-- On a text without `"$"`, every replacement of a `"$i"` placeholder is
a no-op. -/
theorem replacePlaceholders_no_dollar (text : String) (vs : List String)
    (h : '$' ∉ text.data) : replacePlaceholders text vs = text := by
  unfold replacePlaceholders
  exact foldl_jsReplace_no_dollar vs.enum text h

/-- C10: `executeQuerySync` never substitutes any value into the query
text: its guard runs placeholder replacement only when the text does NOT
contain `"$"` (the opposite of `executeQuery`'s guard), and on such a
text every replacement of `"$i"` is a no-op; so for every input
`{ text, values }`, the `sql` field of the message it builds equals
`text` unchanged. -/
theorem executeQuerySync_sql_unchanged (text : String)
    (values : Option (List String)) :
    executeQuerySyncString ⟨text, values⟩ = text ∧
    (executeQuerySyncMessage ⟨text, values⟩).sql = some text := by
  have hs : executeQuerySyncString ⟨text, values⟩ = text := by
    unfold executeQuerySyncString
    cases values with
    | none => rfl
    | some vs =>
        simp only
        by_cases h : jsIndexOf text "$" = -1
        · rw [if_pos h]
          exact replacePlaceholders_no_dollar text vs
            (no_dollar_of_jsIndexOf_eq_neg_one h)
        · rw [if_neg h]
  exact ⟨hs, congrArg some hs⟩

end Elwms
